import Mathlib

/-!
# Verification of the SciQ RAG agent against its specification

A shallow embedding of the claim-relevant parts of the repository:

* `src/rag_agent.py` — the LangGraph workflow (`create_graph`) with its nodes
  `search`, `retrieve_documents`, `generate_answer`, `generate_feedback`,
  `refine_answer`, `conclude` and the conditional-edge functions `route_query`
  and `assess_feedback`;
* `src/search_agent.py` — `SearchAgent.search` with its query-expansion
  failure path;
* `src/evaluation_utils.py` — `evaluate_retrieval_accuracy`;
* `src/ui.py` — the Streamlit turn loop that persists the conversation state.

All LLM / network stages (dspy predictors, web search back-ends, the FAISS
retriever) are modelled as oracle parameters: the embedding is faithful to the
deterministic control flow and string manipulation of the Python code, and
universally quantifies over what the oracles return.
-/

/-! ## The biology domain gate (rag_agent.py, `search` node, lines 64-68)

Python checks `word in state['query'].lower()` for each keyword, i.e. a
case-sensitive substring test against the lowercased query.  Strings are
modelled as Lean `String`; `str.lower()` is per-character ASCII lowercasing
(for the basic-latin characters that matter here Python and this model agree).
-/

/-- Per-character lowercasing, as Python's `str.lower()` acts on basic latin
letters: codepoints 65-90 are shifted by 32, everything else is unchanged. -/
def pyLowerChar (c : Char) : Char :=
  if 65 ≤ c.toNat ∧ c.toNat ≤ 90 then Char.ofNat (c.toNat + 32) else c

/-- `s.lower()` on a Python string, character by character. -/
def pyLower (s : String) : String :=
  ⟨s.data.map pyLowerChar⟩

/-- Python's `w in t` on strings: `w` occurs as a contiguous substring of `t`. -/
def pyIn (w t : String) : Bool :=
  decide (w.data <:+: t.data)

/-- The fixed allow-list from rag_agent.py line 65. -/
def biology_keywords : List String :=
  ["cell", "DNA", "protein", "enzyme", "mitosis", "gene", "biological", "organism", "biology"]

/-- The domain gate of the `search` node (rag_agent.py line 66):
`any(word in state['query'].lower() for word in biology_keywords)`. -/
def domainGate (q : String) : Bool :=
  biology_keywords.any (fun word => pyIn word (pyLower q))

/-- The replacement query installed when the gate rejects (rag_agent.py line 68). -/
def rejectionMessage : String := "Please ask a biology-related question."

/-- The allow-list entries that are all-lowercase (every entry except `"DNA"`). -/
def lowercaseBiologyKeywords : List String :=
  ["cell", "protein", "enzyme", "mitosis", "gene", "biological", "organism", "biology"]

/-! ## Feedback construction (rag_agent.py, `generate_feedback`, lines 107-134) -/

/-- The canonical feedback installed when both assessor flags are empty
(rag_agent.py line 129). -/
def accurateFeedback : String :=
  "The generated answer is accurate and does not contain hallucinations."

/-- The pure core of the `generate_feedback` node: given the two assessor
output strings `is_hallucination` and `is_inaccurate` (empty string = no flag,
mirroring Python truthiness of `str`), build the feedback string exactly as
rag_agent.py lines 122-129 do. -/
def generate_feedback (is_hallucination is_inaccurate : String) : String :=
  let feedback : String :=
    if is_hallucination ≠ "" then "Hallucinations: \n " ++ is_hallucination ++ "\n" else ""
  let feedback : String :=
    if is_inaccurate ≠ "" then feedback ++ ("Inaccuracies: \n " ++ is_inaccurate ++ "\n")
    else feedback
  if feedback = "" then accurateFeedback else feedback

/-! ## Retrieval accuracy (evaluation_utils.py, lines 4-8)

`evaluate_retrieval_accuracy` does `if not relevant: return 0.0` and otherwise
`sum([1 for doc in retrieved if doc in relevant]) / len(relevant)`.  Real
division on small integers is modelled in `ℚ`. -/

/-- `evaluate_retrieval_accuracy(retrieved, relevant)` from evaluation_utils.py. -/
def evaluate_retrieval_accuracy (retrieved relevant : List String) : ℚ :=
  if relevant.isEmpty then 0
  else (retrieved.countP (fun doc => decide (doc ∈ relevant)) : ℚ) / (relevant.length : ℚ)

/-- The formula stated by the spec: `|retrieved ∩ relevant| / |relevant|` with a
genuine set intersection (0 if `relevant` is empty).  Kept separate from the
code's definition so the two can be compared. -/
def setIntersectionAccuracy (retrieved relevant : List String) : ℚ :=
  if relevant.isEmpty then 0
  else ((retrieved.toFinset ∩ relevant.toFinset).card : ℚ) / (relevant.length : ℚ)

example : domainGate "What is mitosis?" = true := by decide
example : domainGate "What is the weather today" = false := by decide
example : evaluate_retrieval_accuracy ["a", "a"] ["a", "b"] = 1 := by
  norm_num [evaluate_retrieval_accuracy]
example : setIntersectionAccuracy ["a", "a"] ["a", "b"] = 1 / 2 := by
  unfold setIntersectionAccuracy
  rw [if_neg (by decide),
    show ((["a", "a"] : List String).toFinset ∩ (["a", "b"] : List String).toFinset).card = 1 by
      decide]
  norm_num
example : generate_feedback "" "" = accurateFeedback := by decide

/-! ## The search agent (search_agent.py, `SearchAgent.search`, lines 104-146)

The query-expansion call (lines 105-114) is a `try/except`: on success it
yields expanded queries and an optional updated query, on failure the method
does `return []` — a bare list, instead of the pair `(papers, updated_query)`
returned on the success path (line 146).  The LLM/network middle of the
pipeline (source selection, arXiv/PubMed/bioRxiv search, relevance ranking)
is an oracle `searchAndRank`. -/

/-- A paper record as produced by the search tools (keys used by the agent:
`Title`, `Abstract`, `Link`). -/
structure Paper where
  title : String
  abstract : String
  link : String
deriving DecidableEq

/-- The output of the query-expansion predictor (`QueryExpansionSignature`):
`expanded_queries` and `updated_query` (empty string = no update). -/
structure ExpandOutput where
  expanded_queries : List String
  updated_query : String
deriving DecidableEq

/-- The value returned by `SearchAgent.search`: either the documented pair
`(papers, updated_query)` (line 146) or, on the expansion-failure path
(line 114), a bare list of papers — in the code always the bare empty list. -/
inductive SearchReturn where
  | bare (papers : List Paper)
  | pair (papers : List Paper) (updated_query : String)
deriving DecidableEq

/-- `MAX_PAPERS` from search_agent.py line 13. -/
def MAX_PAPERS : Nat := 5

namespace SearchAgent

/-- `SearchAgent.search(query, conversation)`.  `expansion` is the outcome of
the `expand_query` call (`Except.error` = the call raised), `searchAndRank`
abstracts steps 2-3 (source selection, the three search back-ends, and LLM
ranking) as a function of the expanded queries and the (possibly updated)
query.  On expansion failure the method returns the bare empty list; on
success it returns the pair of the top `MAX_PAPERS` papers and the updated
query. -/
def search (expansion : Except String ExpandOutput)
    (searchAndRank : List String → String → List Paper)
    (query : String) : SearchReturn :=
  match expansion with
  | .error _ => .bare []
  | .ok response =>
      let query := if response.updated_query ≠ "" then response.updated_query else query
      .pair ((searchAndRank response.expanded_queries query).take MAX_PAPERS)
        response.updated_query

end SearchAgent

/-- The tuple unpacking `papers, updated_query = SearchAgent.search(...)` at
rag_agent.py line 70: a pair unpacks into its two components; the bare list
produced by the failure path is empty, and unpacking a zero-element iterable
into two targets raises `ValueError` — modelled as `none`. -/
def unpack2 : SearchReturn → Option (List Paper × String)
  | .pair papers updated_query => some (papers, updated_query)
  | .bare _ => none

/-! ## The LangGraph workflow (rag_agent.py, `create_graph`, lines 49-310)

The graph state `SciQAgentState` carries the dict fields of the Python
`TypedDict` (the `sources` field is never read or written by any node and is
omitted).  The `abstracts` field models `self.db.abstracts`, the agent-level
pool that the `search` node extends and `route_query` reads.

Each LLM predictor is an oracle field.  A step of the graph returns the next
node, the updated state, and the list of observable calls (`Ev`) the step
made, so that "no external call happens" claims are statable.

One point is not behind an oracle because it is decided by code inside src/:
`retrieve_documents` (rag_agent.py line 197) calls `self.db.retrieve(...)`,
but `paperDB` (src/paper_db.py) defines no `retrieve` method — its members
are `is_pdf`, `scrape_pdf`, `scrape_website`, `process_url`,
`process_urls_parallel` and the attribute `retriever`.  The attribute lookup
`self.db.retrieve` therefore raises `AttributeError` unconditionally, before
the query is even read, so the RETRIEVE node always aborts the turn. -/

/-- A chat message (`{'role': ..., 'content': ...}`). -/
structure Msg where
  role : String
  content : String
deriving DecidableEq

/-- The graph state (`SciQAgentState` TypedDict, rag_agent.py lines 26-35),
plus the agent-level `self.db.abstracts` pool. -/
structure SciQAgentState where
  query : String
  conversation : String
  retrieved_context : String
  generated_answer : String
  feedback : String
  messages : List Msg
  refinement_count : Nat
  abstracts : List String
deriving DecidableEq

/-- Output of the routing predictor (`Literal['vectorstore', 'search']`). -/
inductive RouteOut where
  | vectorstore
  | search
deriving DecidableEq

/-- Output of the feedback-assessor predictor (`Literal['refine', 'end']`). -/
inductive FeedbackOut where
  | refine
  | stop
deriving DecidableEq

/-- The LLM / network stages as oracles.  `route` gets the query and the
joined abstracts text; `searchRet` is the `SearchAgent.search` call on query
and conversation; `genAnswer` gets query, context and the joined
conversation; `assessFlags` returns `(is_hallucination, is_inaccurate)`;
`feedbackDecide` is the feedback classifier; `refineAnswer` gets query,
context, current answer and feedback.  There is no oracle for document
retrieval: `self.db.retrieve` does not exist (see the section comment), so
the RETRIEVE node never reaches any retriever. -/
structure Oracles where
  route : String → String → RouteOut
  searchRet : String → String → SearchReturn
  genAnswer : String → String → String → String
  assessFlags : String → String → String → String × String
  feedbackDecide : String → FeedbackOut
  refineAnswer : String → String → String → String → String

/-- The control locations of the workflow: the START routing decision, the six
nodes, END (`done`), and `fault` for an uncaught Python exception aborting the
turn. -/
inductive Node where
  | route
  | search
  | retrieve
  | generate_answer
  | generate_feedback
  | refine_answer
  | conclude
  | done
  | fault
deriving DecidableEq

/-- Observable calls a step can make, with the argument the code passes.
`retrievalCall` would mark a successful `self.db.retrieve(query)`; since that
method does not exist, no step of this program ever emits it, and an empty
trace witnesses that no retrieval happened. -/
inductive Ev where
  | searchAgentCall (query : String)
  | retrievalCall (query : String)
  | generationCall (query : String)
  | feedbackClassifierCall (feedback : String)
deriving DecidableEq

/-- `"\n******\n".join(self.db.abstracts)` (rag_agent.py line 98). -/
def joinAbstracts (abstracts : List String) : String :=
  String.intercalate "\n******\n" abstracts

/-- `"\n".join([msg['content'] for msg in state['messages']])` (line 226). -/
def joinMessages (messages : List Msg) : String :=
  String.intercalate "\n" (messages.map Msg.content)

/-- The conditional-edge function `assess_feedback` (rag_agent.py lines
136-158): if `refinement_count >= 3` it returns `"end"` immediately; only
otherwise does it call the feedback-classifier LLM.  The second component
records the classifier calls made. -/
def assess_feedback (o : Oracles) (refinement_count : Nat) (feedback : String) :
    FeedbackOut × List Ev :=
  if refinement_count ≥ 3 then (.stop, [])
  else (o.feedbackDecide feedback, [.feedbackClassifierCall feedback])

/-- One step of the workflow from a control location.  Mirrors the node
bodies and the edges wired in `create_graph` (rag_agent.py lines 272-306):
START -`route_query`-> search | retrieve; search -> retrieve ->
generate_answer -> generate_feedback -`assess_feedback`-> refine_answer |
conclude; refine_answer -> generate_feedback; conclude -> END.

In the `search` node (lines 56-85): the gate check precedes everything; on
rejection the node returns `{'query': rejectionMessage}` without calling the
search agent.  Otherwise `SearchAgent.search` is called and unpacked (a bare
return faults the turn); the abstracts pool is extended with the truthy
abstracts, and a truthy `updated_query` replaces `query`.

In the `retrieve` node: the very first statement of `retrieve_documents`
(line 197) is `retrieved_docs = self.db.retrieve(state['query'])`, and
`paperDB` has no `retrieve` member, so the node raises `AttributeError`
unconditionally — before reading the query and before any retrieval — and the
turn faults.  State is unchanged and no call event is emitted.

The `generate_answer` node body (unreachable through the faulting `retrieve`
node, but embedded as written): the LaTeX and ontology post-processing of the
generated answer (lines 239-250), a pure function of the answer text alone,
is absorbed into the answer oracles. -/
def stepE (o : Oracles) : Node × SciQAgentState → (Node × SciQAgentState) × List Ev
  | (.route, s) =>
    match o.route s.query (joinAbstracts s.abstracts) with
    | .search => ((.search, s), [])
    | .vectorstore => ((.retrieve, s), [])
  | (.search, s) =>
    if domainGate s.query then
      match unpack2 (o.searchRet s.query s.conversation) with
      | none => ((.fault, s), [.searchAgentCall s.query])
      | some (papers, updated_query) =>
        let s1 : SciQAgentState :=
          { s with abstracts :=
              s.abstracts ++ (papers.filter (fun p => p.abstract ≠ "")).map Paper.abstract }
        let s2 : SciQAgentState :=
          if updated_query ≠ "" then { s1 with query := updated_query } else s1
        ((.retrieve, s2), [.searchAgentCall s.query])
    else
      ((.retrieve, { s with query := rejectionMessage }), [])
  | (.retrieve, s) => ((.fault, s), [])
  | (.generate_answer, s) =>
    ((.generate_feedback,
      { s with generated_answer :=
          o.genAnswer s.query s.retrieved_context (joinMessages s.messages) }),
      [.generationCall s.query])
  | (.generate_feedback, s) =>
    let flags := o.assessFlags s.query s.retrieved_context s.generated_answer
    let s1 : SciQAgentState := { s with feedback := generate_feedback flags.1 flags.2 }
    let d := assess_feedback o s1.refinement_count s1.feedback
    (((match d.1 with
       | .refine => Node.refine_answer
       | .stop => Node.conclude), s1), d.2)
  | (.refine_answer, s) =>
    ((.generate_feedback,
      { s with
        generated_answer :=
          o.refineAnswer s.query s.retrieved_context s.generated_answer s.feedback,
        refinement_count := s.refinement_count + 1 }), [])
  | (.conclude, s) =>
    ((.done, { s with messages := s.messages ++ [⟨"assistant", s.generated_answer⟩] }), [])
  | (.done, s) => ((.done, s), [])
  | (.fault, s) => ((.fault, s), [])

/-- Run the workflow for `fuel` steps, accumulating the observable calls. -/
def run (o : Oracles) : Nat → Node × SciQAgentState → (Node × SciQAgentState) × List Ev
  | 0, ns => (ns, [])
  | fuel + 1, ns =>
    let r := stepE o ns
    let r2 := run o fuel r.1
    (r2.1, r.2 ++ r2.2)

/-! ## The Streamlit turn loop (ui.py, lines 73-107)

Per turn, ui.py sets `query` to the user input, clears `retrieved_context`,
appends the user message, invokes the graph on the persisted dict, and then
only appends the assistant answer to the persisted `messages` — no other field
of the persisted dict is written back from the graph's output state.  The
agent object (and so `self.db.abstracts`) does persist across turns, which the
model reflects by carrying the response's `abstracts` over. -/

/-- The initial session state (ui.py lines 77-87; the `sources` key is never
read).  The agent's `paperDB` starts with an empty abstracts pool. -/
def uiInitialState : SciQAgentState :=
  { query := ""
    conversation := ""
    retrieved_context := ""
    generated_answer := ""
    feedback := ""
    messages := [⟨"system", "Welcome to SciQ! Ask me a question about biology."⟩]
    refinement_count := 0
    abstracts := [] }

/-- The per-turn preparation of the persisted state (ui.py lines 100-102):
set the query, clear the retrieved context, append the user message. -/
def uiTurnPrep (rs : SciQAgentState) (input : String) : SciQAgentState :=
  { rs with
    query := input
    retrieved_context := ""
    messages := rs.messages ++ [⟨"user", input⟩] }

/-- One full UI turn (ui.py lines 100-107): prepare the state, invoke the
graph (for `fuel` steps) on it, and append the assistant answer to the
persisted messages.  The graph's output state is otherwise discarded; only the
agent-level abstracts pool survives in the agent object. -/
def uiTurn (o : Oracles) (fuel : Nat) (rs : SciQAgentState) (input : String) :
    SciQAgentState :=
  let prep := uiTurnPrep rs input
  let response := (run o fuel (Node.route, prep)).1.2
  { prep with
    messages := prep.messages ++ [⟨"assistant", response.generated_answer⟩]
    abstracts := response.abstracts }

/-- A whole session: fold the turns over the initial state. -/
def uiSession (o : Oracles) (fuel : Nat) (inputs : List String) : SciQAgentState :=
  inputs.foldl (uiTurn o fuel) uiInitialState

/-! ## Concrete instances used by counterexamples and witnesses -/

/-- Constant oracles whose router always answers `vectorstore`. -/
def vectorstoreOracles : Oracles :=
  { route := fun _ _ => .vectorstore
    searchRet := fun _ _ => .pair [] ""
    genAnswer := fun _ _ _ => ""
    assessFlags := fun _ _ _ => ("", "")
    feedbackDecide := fun _ => .stop
    refineAnswer := fun _ _ _ _ => "" }

/-- Constant oracles whose router always answers `search` and whose feedback
classifier always asks for refinement. -/
def refineOracles : Oracles :=
  { vectorstoreOracles with
    route := fun _ _ => .search
    feedbackDecide := fun _ => .refine }

/-- A state with an empty abstracts pool and an in-domain query. -/
def emptyPoolState : SciQAgentState :=
  { query := "What is mitosis?"
    conversation := ""
    retrieved_context := ""
    generated_answer := ""
    feedback := ""
    messages := []
    refinement_count := 0
    abstracts := [] }

/-- A state whose query contains no allow-listed keyword. -/
def weatherState : SciQAgentState :=
  { emptyPoolState with query := "What is the weather today" }

example : (stepE vectorstoreOracles (Node.route, emptyPoolState)).1.1 = Node.retrieve := rfl
example : (run refineOracles 2 (Node.search, weatherState)).1.1 = Node.fault := by decide
example : (run refineOracles 2 (Node.search, weatherState)).2 = [] := by decide

/-! ## Helper lemmas -/

/-- A basic-latin uppercase codepoint shifted by 32 is a lowercase letter, so
never the uppercase letter `D`. -/
theorem ofNat_shift_ne_upper_d (n : Nat) (h1 : 65 ≤ n) (h2 : n ≤ 90) :
    Char.ofNat (n + 32) ≠ 'D' := by
  interval_cases n <;> decide

/-- Lowercasing never produces the uppercase character `D`. -/
theorem pyLowerChar_ne_upper_d (c : Char) : pyLowerChar c ≠ 'D' := by
  unfold pyLowerChar
  split
  case isTrue h => exact ofNat_shift_ne_upper_d c.toNat h.1 h.2
  case isFalse h =>
    intro hc
    subst hc
    exact h (by decide)

/-- The keyword `"DNA"` is never a substring of a lowercased query. -/
theorem pyIn_dna_pyLower (q : String) : pyIn "DNA" (pyLower q) = false := by
  unfold pyIn
  apply decide_eq_false
  intro hinf
  have hD : 'D' ∈ (pyLower q).data := hinf.sublist.subset (by decide)
  have hD2 : 'D' ∈ q.data.map pyLowerChar := hD
  obtain ⟨c, _, hc⟩ := List.mem_map.mp hD2
  exact pyLowerChar_ne_upper_d c hc

/-- Appending to a nonempty string stays nonempty. -/
theorem str_append_ne_empty_left (a b : String) (h : a ≠ "") : a ++ b ≠ "" := by
  intro hab
  have hd : a.data ++ b.data = [] := congrArg String.data hab
  exact h (String.ext (List.append_eq_nil.mp hd).1)

/-- Prepending the empty string is the identity. -/
theorem str_empty_append (s : String) : "" ++ s = s :=
  String.ext rfl

/-- The fault location is absorbing and silent: once a turn has aborted with
an uncaught exception, no further node runs and no further call is made. -/
theorem run_fault (o : Oracles) (fuel : Nat) (s : SciQAgentState) :
    run o fuel (Node.fault, s) = ((Node.fault, s), []) := by
  induction fuel with
  | zero => rfl
  | succ k ih => simp [run, stepE, ih]

/-! ## Claim theorems -/

/-- C10: the domain gate compares each allow-list keyword case-sensitively
against the lowercased query, so the entry `"DNA"` can never match any query;
consequently the gate passes exactly when one of the all-lowercase keywords
(`"gene"`, `"cell"`, ...) occurs in the lowercased query. -/
theorem C10_dna_keyword_dead (q : String) :
    pyIn "DNA" (pyLower q) = false ∧
    domainGate q = lowercaseBiologyKeywords.any (fun word => pyIn word (pyLower q)) := by
  refine ⟨pyIn_dna_pyLower q, ?_⟩
  simp [domainGate, biology_keywords, lowercaseBiologyKeywords, pyIn_dna_pyLower q]

/-- C7: if both assessor flags are empty strings the feedback is the single
canonical "answer is accurate" string; otherwise the feedback is the
concatenation of the non-empty flags with their headers. -/
theorem C7_feedback_assembly (is_hallucination is_inaccurate : String) :
    (is_hallucination = "" → is_inaccurate = "" →
      generate_feedback is_hallucination is_inaccurate = accurateFeedback) ∧
    (is_hallucination ≠ "" → is_inaccurate ≠ "" →
      generate_feedback is_hallucination is_inaccurate =
        ("Hallucinations: \n " ++ is_hallucination ++ "\n") ++
          ("Inaccuracies: \n " ++ is_inaccurate ++ "\n")) ∧
    (is_hallucination ≠ "" → is_inaccurate = "" →
      generate_feedback is_hallucination is_inaccurate =
        "Hallucinations: \n " ++ is_hallucination ++ "\n") ∧
    (is_hallucination = "" → is_inaccurate ≠ "" →
      generate_feedback is_hallucination is_inaccurate =
        "Inaccuracies: \n " ++ is_inaccurate ++ "\n") := by
  refine ⟨?_, ?_, ?_, ?_⟩
  · intro h1 h2
    simp [generate_feedback, h1, h2]
  · intro h1 h2
    have key : (("Hallucinations: \n " ++ is_hallucination ++ "\n") ++
        ("Inaccuracies: \n " ++ is_inaccurate ++ "\n")) ≠ "" :=
      str_append_ne_empty_left _ _ (str_append_ne_empty_left _ _
        (str_append_ne_empty_left _ _ (by decide)))
    simp [generate_feedback, h1, h2, key]
  · intro h1 h2
    have key : ("Hallucinations: \n " ++ is_hallucination ++ "\n") ≠ "" :=
      str_append_ne_empty_left _ _ (str_append_ne_empty_left _ _ (by decide))
    simp [generate_feedback, h1, h2, key]
  · intro h1 h2
    have key : ("Inaccuracies: \n " ++ is_inaccurate ++ "\n") ≠ "" :=
      str_append_ne_empty_left _ _ (str_append_ne_empty_left _ _ (by decide))
    simp [generate_feedback, h1, h2, key, str_empty_append]

/-- C7 witness: the flag-free case yields the canonical string, and a
hallucination flag alone yields its headed copy. -/
theorem C7_feedback_assembly_witness :
    generate_feedback "" "" = accurateFeedback ∧
    generate_feedback "claims flight" "" = "Hallucinations: \n " ++ "claims flight" ++ "\n" :=
  ⟨(C7_feedback_assembly "" "").1 rfl rfl,
    (C7_feedback_assembly "claims flight" "").2.2.1 (by decide) rfl⟩

/-- C8 counterexample: with a duplicated entry in `retrieved`, the code counts
occurrences (`2/2 = 1`) while the spec's set-intersection formula gives
`1/2`. -/
theorem C8_counterexample :
    evaluate_retrieval_accuracy ["a", "a"] ["a", "b"] ≠
      setIntersectionAccuracy ["a", "a"] ["a", "b"] := by
  unfold evaluate_retrieval_accuracy setIntersectionAccuracy
  rw [if_neg (by decide), if_neg (by decide),
    show ((["a", "a"] : List String).toFinset ∩ (["a", "b"] : List String).toFinset).card = 1 by
      decide,
    show List.countP (fun doc => decide (doc ∈ (["a", "b"] : List String))) ["a", "a"] = 2 by
      decide]
  norm_num

/-- C8 amended: the function returns 0 when `relevant` is empty, and otherwise
the number of entries of the `retrieved` list that occur in `relevant`, divided
by `|relevant|`; when `retrieved` has no duplicate entries this coincides with
the spec's `|retrieved ∩ relevant| / |relevant|`. -/
theorem C8_accuracy_nodup (retrieved relevant : List String)
    (h : retrieved.Nodup) :
    evaluate_retrieval_accuracy retrieved relevant =
      setIntersectionAccuracy retrieved relevant := by
  have key : retrieved.countP (fun doc => decide (doc ∈ relevant)) =
      (retrieved.toFinset ∩ relevant.toFinset).card := by
    rw [List.countP_eq_length_filter,
      ← List.toFinset_card_of_nodup (List.Nodup.filter _ h)]
    congr 1
    ext a
    simp [List.mem_toFinset, List.mem_filter]
  unfold evaluate_retrieval_accuracy setIntersectionAccuracy
  by_cases hE : relevant.isEmpty = true
  · rw [if_pos hE, if_pos hE]
  · rw [if_neg hE, if_neg hE, key]

/-- C8 witness: a duplicate-free instance where the code value and the
set-intersection formula agree. -/
theorem C8_accuracy_nodup_witness :
    evaluate_retrieval_accuracy ["a"] ["a", "b"] =
      setIntersectionAccuracy ["a"] ["a", "b"] :=
  C8_accuracy_nodup ["a"] ["a", "b"] (by decide)

/-- C2 counterexample: with an empty abstracts pool, when the routing LLM
returns `vectorstore`, the ROUTE step transitions to RETRIEVE — refuting the
claim that it always transitions to SEARCH in that situation. -/
theorem C2_counterexample :
    emptyPoolState.abstracts = [] ∧
    (stepE vectorstoreOracles (Node.route, emptyPoolState)).1.1 = Node.retrieve :=
  ⟨rfl, rfl⟩

/-- C2 amended: the ROUTE step returns the routing LLM's output unguarded;
with an empty pool the router is invoked with the empty abstracts text, and
its output alone decides the transition (`vectorstore` goes to RETRIEVE,
`search` goes to SEARCH). -/
theorem C2_route_follows_llm (o : Oracles) (s : SciQAgentState)
    (h : s.abstracts = []) :
    (stepE o (Node.route, s)).1.1 =
      (match o.route s.query "" with
        | RouteOut.vectorstore => Node.retrieve
        | RouteOut.search => Node.search) := by
  have hj : joinAbstracts s.abstracts = "" := by rw [h]; rfl
  cases hr : o.route s.query "" with
  | vectorstore => simp [stepE, hj, hr]
  | search => simp [stepE, hj, hr]

/-- C2 witness: the amended routing behaviour at a concrete empty-pool state. -/
theorem C2_route_follows_llm_witness :
    (stepE vectorstoreOracles (Node.route, emptyPoolState)).1.1 =
      (match vectorstoreOracles.route emptyPoolState.query "" with
        | RouteOut.vectorstore => Node.retrieve
        | RouteOut.search => Node.search) :=
  C2_route_follows_llm vectorstoreOracles emptyPoolState rfl

/-- C3 counterexample: for the out-of-domain query "What is the weather
today" the loop does not short-circuit with a rejection answer: the rejection
text is installed as the *query*, the turn then aborts in the RETRIEVE node
(the `AttributeError` from the missing `paperDB.retrieve`), CONCLUDE is never
reached and no answer is ever produced. -/
theorem C3_counterexample :
    domainGate weatherState.query = false ∧
    (run refineOracles 10 (Node.search, weatherState)).1.1 = Node.fault ∧
    (run refineOracles 10 (Node.search, weatherState)).1.2.query = rejectionMessage ∧
    (run refineOracles 10 (Node.search, weatherState)).1.2.generated_answer = "" := by
  exact ⟨by decide, by decide, by decide, by decide⟩

/-- C3 amended: when the query contains no allow-listed keyword, the SEARCH
node makes no external search call and replaces the query with the rejection
message; the graph then hands control to RETRIEVE, which raises
`AttributeError` before performing any retrieval (so no retrieval call is
made and GENERATE never runs) — the turn aborts with an uncaught error
instead of short-circuiting with a rejection answer. -/
theorem C3_gate_rejection (o : Oracles) (s : SciQAgentState)
    (h : domainGate s.query = false) :
    stepE o (Node.search, s) = ((Node.retrieve, { s with query := rejectionMessage }), []) ∧
    (run o 2 (Node.search, s)).1.1 = Node.fault ∧
    ∀ fuel : Nat, (run o fuel (Node.search, s)).2 = [] := by
  refine ⟨by simp [stepE, h], by simp [run, stepE, h], ?_⟩
  intro fuel
  cases fuel with
  | zero => rfl
  | succ k =>
    cases k with
    | zero => simp [run, stepE, h]
    | succ m => simp [run, stepE, h, run_fault]

/-- C3 witness: the amended gate behaviour at the concrete out-of-domain
query. -/
theorem C3_gate_rejection_witness :
    stepE vectorstoreOracles (Node.search, weatherState) =
      ((Node.retrieve, { weatherState with query := rejectionMessage }), []) ∧
    (run vectorstoreOracles 2 (Node.search, weatherState)).1.1 = Node.fault ∧
    (run vectorstoreOracles 5 (Node.search, weatherState)).2 = [] := by
  have h := C3_gate_rejection vectorstoreOracles weatherState (by decide)
  exact ⟨h.1, h.2.1, h.2.2 5⟩

/-- A state that has exhausted the refinement budget. -/
def cappedState : SciQAgentState :=
  { emptyPoolState with
    refinement_count := 3
    generated_answer := "Mitosis has four phases."
    feedback := "The answer is still missing cytokinesis." }

/-- C5: with `refinement_count >= 3` the feedback decision is `end` — forcing
the transition to CONCLUDE — and the feedback-classifier LLM is not called,
whatever the feedback string says and whatever the classifier would answer. -/
theorem C5_cap_forces_end_without_llm (o : Oracles) (s : SciQAgentState)
    (h : 3 ≤ s.refinement_count) :
    (∀ feedback : String,
      assess_feedback o s.refinement_count feedback = (FeedbackOut.stop, [])) ∧
    (stepE o (Node.generate_feedback, s)).1.1 = Node.conclude ∧
    (stepE o (Node.generate_feedback, s)).2 = [] := by
  have key : ∀ feedback : String,
      assess_feedback o s.refinement_count feedback = (FeedbackOut.stop, []) := by
    intro feedback
    simp [assess_feedback, h]
  refine ⟨key, ?_, ?_⟩ <;> simp [stepE, key]

/-- C5 witness: the forced `end` at a concrete capped state, for a feedback
string that asks for more work and a classifier that always answers
`refine`. -/
theorem C5_cap_forces_end_without_llm_witness :
    assess_feedback refineOracles 3 "The answer is still missing cytokinesis." =
      (FeedbackOut.stop, []) ∧
    (stepE refineOracles (Node.generate_feedback, cappedState)).1.1 = Node.conclude ∧
    (stepE refineOracles (Node.generate_feedback, cappedState)).2 = [] := by
  have h := C5_cap_forces_end_without_llm refineOracles cappedState (by decide)
  exact ⟨h.1 "The answer is still missing cytokinesis.", h.2.1, h.2.2⟩

/-- Oracles whose search agent rewrites the query. -/
def rewriteOracles : Oracles :=
  { vectorstoreOracles with
    route := fun _ _ => .search
    searchRet := fun _ _ => .pair [] "stages of mitosis in eukaryotic cells" }

/-- C6: evaluating the embedded code at the failing input.  The SEARCH step
does install the rewritten query permanently in the state (the half of the
claim the code implements), and the graph hands control to RETRIEVE — but the
RETRIEVE node raises `AttributeError` (`paperDB` has no `retrieve` method)
before consuming any query, so the turn faults and the trace contains no
retrieval or generation call: contrary to the claim (and to the spec's
intent, which the claim matches), the rewritten query is never used by
RETRIEVE or GENERATE. -/
theorem C6_rewrite_unconsumed_retrieve_fault :
    domainGate emptyPoolState.query = true ∧
    (stepE rewriteOracles (Node.search, emptyPoolState)).1.2.query =
      "stages of mitosis in eukaryotic cells" ∧
    (stepE rewriteOracles (Node.search, emptyPoolState)).1.1 = Node.retrieve ∧
    (run rewriteOracles 10 (Node.search, emptyPoolState)).1.1 = Node.fault ∧
    (run rewriteOracles 10 (Node.search, emptyPoolState)).2 =
      [Ev.searchAgentCall "What is mitosis?"] := by
  exact ⟨by decide, by decide, by decide, by decide, by decide⟩

/-- C9: when the query-expansion call raises, `SearchAgent.search` returns the
bare empty list instead of the documented `(papers, updated_query)` pair, so
the SEARCH node's two-target unpacking fails and the turn aborts with an
uncaught error rather than degrading to an empty result. -/
theorem C9_expansion_failure_faults (o : Oracles) (s : SciQAgentState)
    (err : String) (searchAndRank : List String → String → List Paper)
    (hg : domainGate s.query = true)
    (ho : o.searchRet s.query s.conversation =
      SearchAgent.search (Except.error err) searchAndRank s.query) :
    SearchAgent.search (Except.error err) searchAndRank s.query =
      SearchReturn.bare [] ∧
    unpack2 (o.searchRet s.query s.conversation) = none ∧
    stepE o (Node.search, s) = ((Node.fault, s), [Ev.searchAgentCall s.query]) := by
  refine ⟨rfl, ?_, ?_⟩ <;> simp [stepE, ho, SearchAgent.search, unpack2, hg]

/-- Oracles whose search agent is run with a failing query expansion. -/
def failingExpansionOracles : Oracles :=
  { vectorstoreOracles with
    route := fun _ _ => .search
    searchRet := fun q _ =>
      SearchAgent.search (Except.error "expansion raised") (fun _ _ => []) q }

/-- C9 witness: the aborted turn at a concrete in-domain query. -/
theorem C9_expansion_failure_faults_witness :
    SearchAgent.search (Except.error "expansion raised") (fun _ _ => [])
      emptyPoolState.query = SearchReturn.bare [] ∧
    unpack2 (failingExpansionOracles.searchRet emptyPoolState.query
      emptyPoolState.conversation) = none ∧
    stepE failingExpansionOracles (Node.search, emptyPoolState) =
      ((Node.fault, emptyPoolState), [Ev.searchAgentCall emptyPoolState.query]) :=
  C9_expansion_failure_faults failingExpansionOracles emptyPoolState
    "expansion raised" (fun _ _ => []) (by decide) rfl

/-- The refinement-count invariant: at most 3 everywhere, and at most 2 when
control is about to execute the `refine_answer` node (the only node that
increments the counter, reachable only while the count is below 3). -/
def countBound (ns : Node × SciQAgentState) : Prop :=
  ns.2.refinement_count ≤ 3 ∧
    (ns.1 = Node.refine_answer → ns.2.refinement_count ≤ 2)

/-- Every step of the workflow preserves the refinement-count invariant. -/
theorem stepE_countBound (o : Oracles) (ns : Node × SciQAgentState)
    (h : countBound ns) : countBound (stepE o ns).1 := by
  obtain ⟨n, s⟩ := ns
  obtain ⟨h1, h2⟩ := h
  cases n with
  | route =>
    cases hr : o.route s.query (joinAbstracts s.abstracts) <;>
      simp [stepE, hr, countBound, h1]
  | search =>
    by_cases hg : domainGate s.query
    · cases hu : unpack2 (o.searchRet s.query s.conversation) with
      | none => simp [stepE, hg, hu, countBound, h1]
      | some pu =>
        obtain ⟨papers, u⟩ := pu
        by_cases hne : u ≠ "" <;> simp [stepE, hg, hu, hne, countBound, h1]
    · simp [stepE, hg, countBound, h1]
  | retrieve => simp [stepE, countBound, h1]
  | generate_answer => simp [stepE, countBound, h1]
  | generate_feedback =>
    by_cases hc : s.refinement_count ≥ 3
    · simp [stepE, assess_feedback, hc, countBound, h1]
    · have hle : s.refinement_count ≤ 2 := by omega
      cases hd : o.feedbackDecide (generate_feedback
          (o.assessFlags s.query s.retrieved_context s.generated_answer).1
          (o.assessFlags s.query s.retrieved_context s.generated_answer).2) with
      | refine => simp [stepE, assess_feedback, hc, hd, countBound, h1, hle]
      | stop => simp [stepE, assess_feedback, hc, hd, countBound, h1]
  | refine_answer =>
    have h3 : s.refinement_count ≤ 2 := h2 rfl
    simp [stepE, countBound]
    omega
  | conclude => simp [stepE, countBound, h1]
  | done => simp [stepE, countBound, h1]
  | fault => simp [stepE, countBound, h1]

/-- Any number of workflow steps preserves the refinement-count invariant. -/
theorem run_countBound (o : Oracles) (fuel : Nat) (ns : Node × SciQAgentState)
    (h : countBound ns) : countBound (run o fuel ns).1 := by
  induction fuel generalizing ns with
  | zero => exact h
  | succ k ih => exact ih _ (stepE_countBound o ns h)

/-- C1: along every execution of the turn from START, under any oracles, the
refinement count never exceeds 3 — `assess_feedback` forces `end` at 3 and
`refine_answer` adds exactly 1 — so in particular it is at most 3 whenever
CONCLUDE is reached. -/
theorem C1_refinement_count_bounded (o : Oracles) (s : SciQAgentState)
    (fuel : Nat) (h : s.refinement_count ≤ 3) :
    ((run o fuel (Node.route, s)).1.2).refinement_count ≤ 3 := by
  have hb : countBound (Node.route, s) := ⟨h, fun hc => Node.noConfusion hc⟩
  exact (run_countBound o fuel (Node.route, s) hb).1

/-- C1 witness: a concrete turn (under a classifier that always demands
refinement) stays within the ceiling.  In the shipped program such a turn
faults in the RETRIEVE node before the refinement loop is reached, so its
count in fact stays 0; the theorem's bound covers the loop itself through the
invariant over every control location. -/
theorem C1_refinement_count_bounded_witness :
    ((run refineOracles 20 (Node.route, emptyPoolState)).1.2).refinement_count ≤ 3 :=
  C1_refinement_count_bounded refineOracles emptyPoolState 20 (by decide)

/-- The persisted refinement count survives a UI turn unchanged: ui.py never
copies the graph's output state back into the session dict (only the answer is
appended to `messages`), so whatever count the graph accumulated is
discarded. -/
theorem uiTurn_refinement_count (o : Oracles) (fuel : Nat)
    (rs : SciQAgentState) (input : String) :
    (uiTurn o fuel rs input).refinement_count = rs.refinement_count := rfl

/-- Across any whole session the persisted refinement count stays 0. -/
theorem uiSession_refinement_count (o : Oracles) (fuel : Nat)
    (inputs : List String) : (uiSession o fuel inputs).refinement_count = 0 := by
  suffices key : ∀ (l : List String) (rs : SciQAgentState),
      (l.foldl (uiTurn o fuel) rs).refinement_count = rs.refinement_count by
    exact key inputs uiInitialState
  intro l
  induction l with
  | nil => intro rs; rfl
  | cons a l ih =>
    intro rs
    rw [List.foldl_cons, ih, uiTurn_refinement_count]

/-- C4: at the start of every new turn — each invocation of the graph on the
persisted session state with a new user message — the refinement count the
refinement loop sees is 0, so refinements applied in earlier turns never count
against the current turn's ceiling.  (The code achieves this not by an
explicit reset but by never writing the graph's output count back into the
persisted state, which therefore keeps its initial value 0.) -/
theorem C4_turn_starts_with_zero_count (o : Oracles) (fuel : Nat)
    (inputs : List String) (input : String) :
    (uiSession o fuel inputs).refinement_count = 0 ∧
    (uiTurnPrep (uiSession o fuel inputs) input).refinement_count = 0 := by
  refine ⟨uiSession_refinement_count o fuel inputs, ?_⟩
  show (uiSession o fuel inputs).refinement_count = 0
  exact uiSession_refinement_count o fuel inputs
